import Mathlib

/-!
# Bubble-Juggle: the game store and the paddle frame update

A shallow embedding of `src/App.jsx`:

* the zustand store `useStore` (`count`, `welcome`, `api.pong`, `api.reset`),
* the three event handlers wired to it (`Paddle.onCollide`,
  `ContactGround.onCollide`, `App.onClick`),
* the delivery of events by the mounted app, where the ball is in the physics
  world only while `welcome` is false,
* the per-frame callback that `Paddle` passes to `useFrame`.

Numbers.  JavaScript numbers are idealised as exact values: `count` (which
starts at `0` and is only ever incremented by one or set back to `0`) is a
natural number, every other number is a rational.  Rounding of IEEE doubles,
`NaN` and the infinities are outside the model; the literals `0.2`, `4`, `20`,
`10`, `5` denote the rationals they spell.

The spec's `phase` is the store's `welcome` flag: `IDLE` is `welcome = true`,
`PLAYING` is `welcome = false`; the spec's `score` is the store's `count`.
-/

namespace BubbleJuggle

/-! ## Library functions used by the source -/

/-- The `clamp(number, lower, upper)` of lodash with all three arguments given:
the number is first capped at `upper`, the result is then raised to `lower`. -/
def clamp (number lower upper : ℚ) : ℚ :=
  let number := if number ≤ upper then number else upper
  if number ≥ lower then number else lower

/-- The `lerp(v0, v1, t)` of the `lerp` package: `v0 * (1 - t) + v1 * t`. -/
def lerp (v0 v1 t : ℚ) : ℚ :=
  v0 * (1 - t) + v1 * t

namespace Math

/-- The constant `Math.PI`: the double nearest to pi, an exact dyadic rational. -/
def PI : ℚ := 884279719003555 / 281474976710656

end Math

/-! ## The store (`App.jsx`, lines 12-25) -/

/-- The data fields of the store created by `create((set) => ...)`. -/
structure Store where
  count : Nat
  welcome : Bool
  deriving DecidableEq, Repr

/-- The fields of the `Audio` element `ping` that the store writes, and the
number of `play()` requests it has received. -/
structure Audio where
  currentTime : ℚ
  volume : ℚ
  plays : Nat
  deriving DecidableEq, Repr

/-- Everything `api.pong` and `api.reset` can read or write. -/
structure World where
  store : Store
  ping : Audio
  deriving DecidableEq, Repr

/-- The store as created: `count: 0, welcome: true`. -/
def Store.initial : Store :=
  { count := 0, welcome := true }

/-- The two phases of the spec. -/
inductive Phase where
  | IDLE
  | PLAYING
  deriving DecidableEq, Repr

/-- The phase a store is in: `IDLE` when `welcome` is set, `PLAYING` otherwise. -/
def Store.phase (s : Store) : Phase :=
  if s.welcome then Phase.IDLE else Phase.PLAYING

/-- The score of the spec is the field `count`. -/
def Store.score (s : Store) : Nat :=
  s.count

/-- The method `api.pong(velocity)`:
`ping.currentTime = 0; ping.volume = clamp(velocity / 20, 0, 1); ping.play();`
`if (velocity > 4) set((state) => ({ count: state.count + 1 }))`. -/
def pong (velocity : ℚ) (w : World) : World :=
  let ping : Audio := { w.ping with currentTime := 0 }
  let ping : Audio := { ping with volume := clamp (velocity / 20) 0 1 }
  let ping : Audio := { ping with plays := ping.plays + 1 }
  let store : Store :=
    if velocity > 4 then { w.store with count := w.store.count + 1 } else w.store
  { store := store, ping := ping }

/-- The method `api.reset(welcome)`:
`set((state) => ({ welcome, count: welcome ? state.count : 0 }))`. -/
def reset (welcome : Bool) (w : World) : World :=
  { w with store :=
      { w.store with welcome := welcome, count := if welcome then w.store.count else 0 } }

/-! ## The event handlers -/

/-- The paddle body's `onCollide: (e) => pong(e.contact.impactVelocity)`. -/
def Paddle.onCollide (impactVelocity : ℚ) (w : World) : World :=
  pong impactVelocity w

/-- The ground plane's `onCollide: () => reset(true)`. -/
def ContactGround.onCollide (w : World) : World :=
  reset true w

/-- The click handler of `App`: `() => welcome && reset(false)`. -/
def App.onClick (w : World) : World :=
  if w.store.welcome then reset false w else w

/-! ## Event delivery by the mounted app (`App.jsx`, lines 117-171) -/

/-- The events that reach the store while `App` is mounted: the ball touching
the paddle body with some impact velocity, the ball touching the ground plane,
and a click on the page. -/
inductive Event where
  | paddleHit (impactVelocity : ℚ)
  | groundHit
  | click
  deriving DecidableEq, Repr

/-- Whether the ball is in the physics world: `{!welcome && <Ball />}`. -/
def App.ballMounted (w : World) : Bool :=
  !w.store.welcome

/-- One event as the mounted app handles it.  The physics world holds the
paddle and the ground plane always and the ball only while `welcome` is false;
the kinematic paddle is written to `|y| ≤ 5` and the static plane lies at
`y = -10`, so every contact involves the ball, and the two `onCollide` handlers
run only while the ball is mounted.  A click runs `App.onClick`. -/
def App.deliver (e : Event) (w : World) : World :=
  match e with
  | Event.paddleHit impactVelocity =>
    if App.ballMounted w then Paddle.onCollide impactVelocity w else w
  | Event.groundHit =>
    if App.ballMounted w then ContactGround.onCollide w else w
  | Event.click => App.onClick w

/-! ## The paddle frame callback (`App.jsx`, lines 43-55) -/

/-- A triple of coordinates, as passed to `api.position.set` and
`api.rotation.set`. -/
structure Vec3 where
  x : ℚ
  y : ℚ
  z : ℚ
  deriving DecidableEq, Repr

/-- What the frame callback of `Paddle` reads and writes: the ref `values`,
the transform of the kinematic body, its wake flag, and the two rotation
angles of the rendered model. -/
structure PaddleState where
  values0 : ℚ
  values1 : ℚ
  position : Vec3
  rotation : Vec3
  awake : Bool
  modelRotationX : ℚ
  modelRotationY : ℚ
  deriving DecidableEq, Repr

/-- The paddle before its first frame: `useRef([0, 0])`, a body at the origin
with no rotation, and a model that has not been turned. -/
def PaddleState.initial : PaddleState :=
  { values0 := 0, values1 := 0, position := ⟨0, 0, 0⟩, rotation := ⟨0, 0, 0⟩,
    awake := true, modelRotationX := 0, modelRotationY := 0 }

/-- One call of the callback given to `useFrame`, with `state.mouse = (mouseX,
mouseY)` and the `welcome` flag the component rendered with. -/
def Paddle.useFrame (mouseX mouseY : ℚ) (welcome : Bool) (p : PaddleState) : PaddleState :=
  let values0 := lerp p.values0 ((mouseX * Math.PI) / 5) (2 / 10)
  let values1 := lerp p.values1 ((mouseX * Math.PI) / 5) (2 / 10)
  let position : Vec3 := ⟨mouseX * 10, mouseY * 5, 0⟩
  let rotation : Vec3 := ⟨0, 0, values1⟩
  let awake := true
  let modelRotationX := lerp p.modelRotationX (if welcome then Math.PI / 2 else 0) (2 / 10)
  let modelRotationY := values0
  { values0 := values0, values1 := values1, position := position, rotation := rotation,
    awake := awake, modelRotationX := modelRotationX, modelRotationY := modelRotationY }

/-- The paddle after `n` frames with the pointer held at `(mouseX, mouseY)`. -/
def Paddle.frames (mouseX mouseY : ℚ) (welcome : Bool) (p : PaddleState) : Nat → PaddleState
  | 0 => p
  | n + 1 => Paddle.useFrame mouseX mouseY welcome (Paddle.frames mouseX mouseY welcome p n)

/-- The point `(x * 10, y * 5, 0)` the paddle body is meant to be at. -/
def targetPosition (x y : ℚ) : Vec3 :=
  ⟨x * 10, y * 5, 0⟩

/-- The yaw `x * (pi / 5)` the smoothed angles move toward. -/
def targetYaw (x : ℚ) : ℚ :=
  x * (Math.PI / 5)

/-- Distance between two positions, as the largest coordinate difference. -/
def posError (p q : Vec3) : ℚ :=
  max (max |p.x - q.x| |p.y - q.y|) |p.z - q.z|

/-! ## Sample states -/

/-- A world to evaluate the operations on: three points scored, a round in
progress, the clip half a second in at volume one half after two plays. -/
def sampleWorld : World :=
  { store := { count := 3, welcome := false },
    ping := { currentTime := 1 / 2, volume := 1 / 2, plays := 2 } }

/-- The sample world after the ball has reached the ground: idle, score kept. -/
def sampleIdle : World :=
  { store := { count := 3, welcome := true },
    ping := { currentTime := 1 / 2, volume := 1 / 2, plays := 2 } }

/-- A paddle in mid-motion: both smoothed angles at one half, the body away
from the origin and the model tilted. -/
def samplePaddle : PaddleState :=
  { values0 := 1 / 2, values1 := 1 / 2, position := ⟨3, -2, 0⟩, rotation := ⟨0, 0, 1 / 2⟩,
    awake := true, modelRotationX := 1, modelRotationY := 1 / 2 }

/-! ## The store operations -/

/-- C1: for every state and every impact velocity `v`, `pong v` gives a score of
`s.score + 1` when `v > 4` and `s.score` otherwise (so `v = 4` does not score),
and leaves the welcome flag, hence the phase, as it was; the paddle collision
handler is `pong` of the impact velocity. -/
theorem pong_score_phase (w : World) (v : ℚ) :
    (pong v w).store.score = (if v > 4 then w.store.score + 1 else w.store.score)
      ∧ (pong v w).store.phase = w.store.phase
      ∧ (pong v w).store.welcome = w.store.welcome
      ∧ (pong 4 w).store.score = w.store.score
      ∧ Paddle.onCollide v w = pong v w := by
  refine ⟨?_, ?_, ?_, ?_, rfl⟩
  · unfold pong Store.score
    split_ifs <;> rfl
  · unfold pong Store.phase
    split_ifs <;> rfl
  · unfold pong
    split_ifs <;> rfl
  · unfold pong Store.score
    norm_num

/-- The value of `clamp` with bounds `0` and `1` lies between them. -/
theorem clamp_zero_one_bounds (a : ℚ) : 0 ≤ clamp a 0 1 ∧ clamp a 0 1 ≤ 1 := by
  simp only [clamp]
  constructor <;> split_ifs <;> linarith

/-- For a non-negative number, `clamp` with bounds `0` and `1` is `min` with `1`. -/
theorem clamp_zero_one_of_nonneg (a : ℚ) (h : 0 ≤ a) : clamp a 0 1 = min a 1 := by
  simp only [clamp]
  rcases le_total a 1 with h1 | h1
  · rw [min_eq_left h1]
    split_ifs <;> linarith
  · rw [min_eq_right h1]
    split_ifs <;> linarith

/-- C2: the volume `pong v` sets is `clamp (v / 20) 0 1`; for `v ≥ 0` that is
`min (v / 20) 1`; for every `v`, negative included, it lies in `[0, 1]`, is `0`
when `v ≤ 0` and `1` when `v ≥ 20`. -/
theorem pong_volume (w : World) (v : ℚ) :
    (pong v w).ping.volume = clamp (v / 20) 0 1
      ∧ (0 ≤ v → (pong v w).ping.volume = min (v / 20) 1)
      ∧ 0 ≤ (pong v w).ping.volume
      ∧ (pong v w).ping.volume ≤ 1
      ∧ (v ≤ 0 → (pong v w).ping.volume = 0)
      ∧ (20 ≤ v → (pong v w).ping.volume = 1) := by
  have hvol : (pong v w).ping.volume = clamp (v / 20) 0 1 := rfl
  rw [hvol]
  refine ⟨rfl, ?_, (clamp_zero_one_bounds _).1, (clamp_zero_one_bounds _).2, ?_, ?_⟩
  · intro hv
    exact clamp_zero_one_of_nonneg _ (div_nonneg hv (by norm_num))
  · intro hv
    have h20 : v / 20 ≤ 0 := div_nonpos_of_nonpos_of_nonneg hv (by norm_num)
    simp only [clamp]
    split_ifs <;> linarith
  · intro hv
    have h20 : 1 ≤ v / 20 := by
      rw [le_div_iff₀ (by norm_num : (0 : ℚ) < 20)]
      linarith
    simp only [clamp]
    split_ifs <;> linarith

/-- C2 at the sample world with impact velocity `10`: the volume is one half. -/
theorem pong_volume_witness :
    (0 : ℚ) ≤ 10 ∧ (pong 10 sampleWorld).ping.volume = min (10 / 20) 1 :=
  ⟨by norm_num, (pong_volume sampleWorld 10).2.1 (by norm_num)⟩

/-- C3: for every state, `reset false` gives score `0` and phase `PLAYING`
(`welcome = false`), whatever the score and phase were. -/
theorem reset_false_zero_playing (w : World) :
    (reset false w).store.score = 0
      ∧ (reset false w).store.phase = Phase.PLAYING
      ∧ (reset false w).store.welcome = false :=
  ⟨rfl, rfl, rfl⟩

/-- C4: for every state, `reset true` gives phase `IDLE` (`welcome = true`) and
leaves the score as it was. -/
theorem reset_true_keeps_score (w : World) :
    (reset true w).store.phase = Phase.IDLE
      ∧ (reset true w).store.welcome = true
      ∧ (reset true w).store.score = w.store.score :=
  ⟨rfl, rfl, rfl⟩

/-- C5: `reset true` is idempotent: applied twice in succession it gives
exactly the state it gives applied once. -/
theorem reset_true_idempotent (w : World) :
    reset true (reset true w) = reset true w :=
  rfl

/-- C6: for every state, in either phase, the ground-plane collision handler
gives phase `IDLE` and leaves the score as it was; the handler is `reset true`. -/
theorem ground_collision_idle (w : World) :
    (ContactGround.onCollide w).store.phase = Phase.IDLE
      ∧ (ContactGround.onCollide w).store.score = w.store.score
      ∧ ContactGround.onCollide w = reset true w :=
  ⟨rfl, rfl, rfl⟩

/-- C7: the click handler leaves the whole state unchanged while the phase is
`PLAYING`, and from `IDLE` it gives phase `PLAYING` with score `0`. -/
theorem onClick_start (w : World) :
    (w.store.phase = Phase.PLAYING → App.onClick w = w)
      ∧ (w.store.phase = Phase.IDLE →
          (App.onClick w).store.phase = Phase.PLAYING ∧ (App.onClick w).store.score = 0) := by
  unfold App.onClick Store.phase
  cases hw : w.store.welcome
  · simp
  · simp [reset, Store.score]

/-- C7 at the sample worlds: a click during the round changes nothing, a click
on the idle screen starts a round at score `0`. -/
theorem onClick_start_witness :
    sampleWorld.store.phase = Phase.PLAYING ∧ App.onClick sampleWorld = sampleWorld
      ∧ sampleIdle.store.phase = Phase.IDLE
      ∧ (App.onClick sampleIdle).store.phase = Phase.PLAYING
      ∧ (App.onClick sampleIdle).store.score = 0 :=
  ⟨rfl, (onClick_start sampleWorld).1 rfl, rfl, (onClick_start sampleIdle).2 rfl⟩

/-- C10: while the phase is `IDLE` the score is frozen: for every state with
phase `IDLE` and every event the app delivers that leaves the phase `IDLE`, the
resulting score is the score before.  A paddle collision, for any impact
velocity, and a ground collision leave the phase `IDLE` and the score as it
was, and so do the ground handler and `reset true` called on their own. -/
theorem idle_score_frozen (w : World) (e : Event) (h : w.store.phase = Phase.IDLE)
    (hk : (App.deliver e w).store.phase = Phase.IDLE) :
    (App.deliver e w).store.score = w.store.score
      ∧ (∀ v : ℚ, (App.deliver (Event.paddleHit v) w).store.phase = Phase.IDLE
          ∧ (App.deliver (Event.paddleHit v) w).store.score = w.store.score)
      ∧ (App.deliver Event.groundHit w).store.phase = Phase.IDLE
      ∧ (App.deliver Event.groundHit w).store.score = w.store.score
      ∧ (ContactGround.onCollide w).store.phase = Phase.IDLE
      ∧ (ContactGround.onCollide w).store.score = w.store.score
      ∧ (reset true w).store.phase = Phase.IDLE
      ∧ (reset true w).store.score = w.store.score := by
  have hw : w.store.welcome = true := by
    unfold Store.phase at h
    by_contra hne
    rw [if_neg hne] at h
    exact Phase.noConfusion h
  have hpad : ∀ v : ℚ, App.deliver (Event.paddleHit v) w = w := by
    intro v
    simp [App.deliver, App.ballMounted, hw]
  have hgnd : App.deliver Event.groundHit w = w := by
    simp [App.deliver, App.ballMounted, hw]
  refine ⟨?_, ?_, ?_, ?_, rfl, rfl, rfl, rfl⟩
  · cases e with
    | paddleHit v => rw [hpad v]
    | groundHit => rw [hgnd]
    | click =>
      exfalso
      have hclick : (App.deliver Event.click w).store.phase = Phase.PLAYING := by
        simp [App.deliver, App.onClick, hw, reset, Store.phase]
      rw [hclick] at hk
      exact Phase.noConfusion hk
  · intro v
    rw [hpad v]
    exact ⟨h, rfl⟩
  · rw [hgnd]
    exact h
  · rw [hgnd]

/-- C10 at the idle sample world with a paddle contact of impact velocity `5`:
no ball is mounted, the phase stays `IDLE` and the score stays `3`. -/
theorem idle_score_frozen_witness :
    sampleIdle.store.phase = Phase.IDLE
      ∧ (App.deliver (Event.paddleHit 5) sampleIdle).store.phase = Phase.IDLE
      ∧ (App.deliver (Event.paddleHit 5) sampleIdle).store.score = 3 :=
  ⟨rfl, rfl, (idle_score_frozen sampleIdle (Event.paddleHit 5) rfl rfl).1⟩

/-! ## The paddle frame callback -/

/-- One `lerp` step with factor `0.2` leaves `0.8` of the distance to the target. -/
theorem lerp_error (a target : ℚ) :
    lerp a target (2 / 10) - target = (8 / 10) * (a - target) := by
  unfold lerp
  ring

/-- The argument `(x * Math.PI) / 5` of `lerp` is the target yaw `x * (pi / 5)`. -/
theorem targetYaw_eq (x : ℚ) : (x * Math.PI) / 5 = targetYaw x := by
  unfold targetYaw
  ring

/-- The position the frame callback writes is `(x * 10, y * 5, 0)`, whatever
the paddle state was. -/
theorem useFrame_position (x y : ℚ) (welcome : Bool) (p : PaddleState) :
    (Paddle.useFrame x y welcome p).position = targetPosition x y :=
  rfl

/-- After at least one frame the body position is the target position. -/
theorem frames_position (x y : ℚ) (welcome : Bool) (p : PaddleState) (n : Nat) :
    (Paddle.frames x y welcome p (n + 1)).position = targetPosition x y :=
  rfl

/-- The distance of a position to itself is zero. -/
theorem posError_self (p : Vec3) : posError p p = 0 := by
  simp [posError]

/-- The distance between positions is never negative. -/
theorem posError_nonneg (p q : Vec3) : 0 ≤ posError p q := by
  unfold posError
  exact le_max_of_le_right (abs_nonneg _)

/-- The second smoothed value after `n` frames, from any starting state. -/
theorem frames_values1 (x y : ℚ) (welcome : Bool) (p : PaddleState) (n : Nat) :
    (Paddle.frames x y welcome p n).values1
      = targetYaw x + (8 / 10) ^ n * (p.values1 - targetYaw x) := by
  induction n with
  | zero => simp [Paddle.frames]
  | succ k ih =>
    have hstep : (Paddle.frames x y welcome p (k + 1)).values1
        = lerp (Paddle.frames x y welcome p k).values1 (targetYaw x) (2 / 10) := by
      rw [← targetYaw_eq]
      rfl
    have herr := lerp_error (Paddle.frames x y welcome p k).values1 (targetYaw x)
    rw [hstep, pow_succ]
    rw [ih] at herr ⊢
    linarith

/-- The first smoothed value after `n` frames, from any starting state. -/
theorem frames_values0 (x y : ℚ) (welcome : Bool) (p : PaddleState) (n : Nat) :
    (Paddle.frames x y welcome p n).values0
      = targetYaw x + (8 / 10) ^ n * (p.values0 - targetYaw x) := by
  induction n with
  | zero => simp [Paddle.frames]
  | succ k ih =>
    have hstep : (Paddle.frames x y welcome p (k + 1)).values0
        = lerp (Paddle.frames x y welcome p k).values0 (targetYaw x) (2 / 10) := by
      rw [← targetYaw_eq]
      rfl
    have herr := lerp_error (Paddle.frames x y welcome p k).values0 (targetYaw x)
    rw [hstep, pow_succ]
    rw [ih] at herr ⊢
    linarith

/-- C8: with the pointer held at `(x, y)`, from any paddle state, the position
written to the body is within any `eps > 0` of `(x * 10, y * 5, 0)` for all
sufficiently large frame counts, and the error after each frame is at most
`0.8` times the error after the previous one.  The callback writes the target
itself, so the position is exact from the first frame on. -/
theorem paddle_position_tracks (x y : ℚ) (welcome : Bool) (p : PaddleState) :
    (∀ eps : ℚ, 0 < eps → ∃ N0 : Nat, ∀ N : Nat, N0 ≤ N →
        posError (Paddle.frames x y welcome p N).position (targetPosition x y) < eps)
      ∧ (∀ N : Nat,
          posError (Paddle.frames x y welcome p (N + 1)).position (targetPosition x y)
            ≤ (8 / 10) * posError (Paddle.frames x y welcome p N).position (targetPosition x y))
      ∧ (∀ N : Nat, 1 ≤ N →
          (Paddle.frames x y welcome p N).position = targetPosition x y) := by
  have hpos : ∀ N : Nat, 1 ≤ N →
      (Paddle.frames x y welcome p N).position = targetPosition x y := by
    intro N hN
    obtain ⟨k, rfl⟩ : ∃ k, N = k + 1 := ⟨N - 1, by omega⟩
    exact frames_position x y welcome p k
  refine ⟨?_, ?_, hpos⟩
  · intro eps heps
    refine ⟨1, fun N hN => ?_⟩
    rw [hpos N hN, posError_self]
    exact heps
  · intro N
    rw [frames_position, posError_self]
    exact mul_nonneg (by norm_num) (posError_nonneg _ _)

/-- C8 at the sample paddle with the pointer at `(1/2, -1)`: after three frames
the body is at `(5, -5, 0)`, and the first frame takes the error from `3` to `0`. -/
theorem paddle_position_tracks_witness :
    (Paddle.frames (1 / 2) (-1) false samplePaddle 3).position = targetPosition (1 / 2) (-1)
      ∧ posError (Paddle.frames (1 / 2) (-1) false samplePaddle (0 + 1)).position
            (targetPosition (1 / 2) (-1))
          ≤ (8 / 10) * posError (Paddle.frames (1 / 2) (-1) false samplePaddle 0).position
            (targetPosition (1 / 2) (-1)) :=
  ⟨(paddle_position_tracks (1 / 2) (-1) false samplePaddle).2.2 3 (by decide),
    (paddle_position_tracks (1 / 2) (-1) false samplePaddle).2.1 0⟩

/-- C9: one frame moves each smoothed value by `lerp` with factor `0.2` toward
`x * pi / 5`, leaving `0.8` of the distance; with the pointer held at `x`,
starting from `0`, the smoothed value after `N` frames is
`target * (1 - 0.8 ^ N)`; `values[0]` and `values[1]` are equal on every frame;
the body rotation written is `(0, 0, smoothed)`. -/
theorem yaw_one_pole_filter (x y : ℚ) (welcome : Bool) (p : PaddleState) :
    (Paddle.useFrame x y welcome p).values1 = lerp p.values1 (targetYaw x) (2 / 10)
      ∧ (Paddle.useFrame x y welcome p).values0 = lerp p.values0 (targetYaw x) (2 / 10)
      ∧ (Paddle.useFrame x y welcome p).values1 - targetYaw x
          = (8 / 10) * (p.values1 - targetYaw x)
      ∧ (Paddle.useFrame x y welcome p).values0 - targetYaw x
          = (8 / 10) * (p.values0 - targetYaw x)
      ∧ (∀ N : Nat, (Paddle.frames x y welcome PaddleState.initial N).values1
          = targetYaw x * (1 - (8 / 10) ^ N))
      ∧ (∀ N : Nat, (Paddle.frames x y welcome PaddleState.initial N).values0
          = (Paddle.frames x y welcome PaddleState.initial N).values1)
      ∧ (Paddle.useFrame x y welcome p).rotation
          = ⟨0, 0, (Paddle.useFrame x y welcome p).values1⟩
      ∧ (∀ N : Nat, (Paddle.frames x y welcome PaddleState.initial (N + 1)).rotation
          = ⟨0, 0, targetYaw x * (1 - (8 / 10) ^ (N + 1))⟩) := by
  have h1 : (Paddle.useFrame x y welcome p).values1
      = lerp p.values1 (targetYaw x) (2 / 10) := by
    rw [← targetYaw_eq]
    rfl
  have h0 : (Paddle.useFrame x y welcome p).values0
      = lerp p.values0 (targetYaw x) (2 / 10) := by
    rw [← targetYaw_eq]
    rfl
  have hN : ∀ N : Nat, (Paddle.frames x y welcome PaddleState.initial N).values1
      = targetYaw x * (1 - (8 / 10) ^ N) := by
    intro N
    rw [frames_values1]
    simp only [PaddleState.initial]
    ring
  refine ⟨h1, h0, ?_, ?_, hN, ?_, rfl, ?_⟩
  · rw [h1]
    exact lerp_error _ _
  · rw [h0]
    exact lerp_error _ _
  · intro N
    rw [frames_values0, frames_values1]
    rfl
  · intro N
    rw [← hN (N + 1)]
    rfl

end BubbleJuggle
